import Mathlib

/-!
Shallow embedding of `src/streamlit_app.py` (Hafizpambudi/Rag-skincare),
a single-file Streamlit RAG chat application.  External services
(the embedding endpoint, the Qdrant vector index, the Together
completion stream) are modelled as oracle parameters; the pure glue
logic (context formatting, fragment handling, the per-turn pipeline,
the session-state machine of the script) is translated directly from
the source.
-/

namespace RagSkincare

/-- A retrieved product payload: a Python dict queried with
`doc.get(key, default)`; an absent key is `none`. -/
structure Doc where
  product_name : Option String
  description : Option String
  product_image_link : Option String
deriving Repr, DecidableEq

/-- One line of `format_context` (source line 82):
`f"- {doc.get('product_name', 'Tanpa Nama')}, {doc.get('description', '')} (Gambar: {doc.get('product_image_link', '-')})"`. -/
def format_line (doc : Doc) : String :=
  "- " ++ doc.product_name.getD "Tanpa Nama" ++ ", " ++
    doc.description.getD "" ++ " (Gambar: " ++
    doc.product_image_link.getD "-" ++ ")"

/-- `format_context` (source lines 80-84): `"\n".join([... for doc in docs])`. -/
def format_context (docs : List Doc) : String :=
  String.intercalate "\n" (docs.map format_line)

/-- A point returned by `qdrant_client.search` (source lines 65-74):
payload, similarity score and stored vector. -/
structure ScoredPoint where
  payload : Doc
  score : Int
  vector : List Int

/-- Result of `retrieve_documents`: the payloads returned to the caller,
and whether the vector index was contacted at all. -/
structure RetrieveResult where
  docs : List Doc
  indexInvoked : Bool
deriving Repr, DecidableEq

/-- `retrieve_documents` (source lines 57-78).  `embed` models
`embed_text` (source lines 41-55): `none` when the embedding call failed
(the Python function returns `None`).  `searchIndex` models the
`qdrant_client.search` call, `Except.error` being a raised exception
caught by the `try/except` (lines 76-78).  The guard `if not embedding:
return []` (lines 59-60) tests Python truthiness, so both `None` and an
empty vector short-circuit to `[]` before the index is contacted. -/
def retrieve_documents (embed : String → Option (List Int))
    (searchIndex : List Int → Except String (List ScoredPoint))
    (query : String) : RetrieveResult :=
  match embed query with
  | none => ⟨[], false⟩
  | some [] => ⟨[], false⟩
  | some v =>
    match searchIndex v with
    | Except.ok results => ⟨results.map (fun p => p.payload), true⟩
    | Except.error _ => ⟨[], true⟩

/-- The fixed fallback yielded by `generate_answer` when no documents
were retrieved (source line 88). -/
def no_info_message : String := "Maaf, saya tidak menemukan informasi relevan."

/-- The fixed apology substituted by the conversation loop's `except`
handler (source line 172). -/
def apology_message : String := "Maaf, saya tidak menemukan informasi relevan."

/-- One chunk of the completion stream; `content` models
`chunk.choices[0].delta.content`, which may be `None`. -/
structure StreamChunk where
  content : Option String
deriving Repr, DecidableEq

/-- The fragment yielded per chunk (source line 108):
`chunk.choices[0].delta.content or ""`.  Python `x or ""` yields `""`
for `None` and for the (already-empty) falsy string, so it agrees with
`Option.getD ""` on strings. -/
def chunkFragment (c : StreamChunk) : String :=
  c.content.getD ""

/-- Result of a full run of the generator `generate_answer`: the
fragments it yields in order, and whether the external completion call
was opened. -/
structure GenerateResult where
  fragments : List String
  externalCall : Bool
deriving Repr, DecidableEq

/-- `generate_answer` (source lines 86-110).  `stream` is the oracle
response of the external completion call (only consumed on the
non-empty path).  With empty `docs` the generator yields the fixed
message and returns before any external call (lines 87-89); otherwise
it yields `chunk.choices[0].delta.content or ""` per chunk in stream
order (lines 107-110). -/
def generate_answer (_query : String) (docs : List Doc)
    (stream : List StreamChunk) : GenerateResult :=
  if docs.isEmpty then
    ⟨[no_info_message], false⟩
  else
    ⟨stream.map chunkFragment, true⟩

/-- One entry of `st.session_state.messages`: a dict
`{"role": ..., "content": ...}` (source line 128). -/
structure Turn where
  role : String
  content : String
deriving Repr, DecidableEq

/-- The external world of one per-turn pipeline run (lines 166-170):
the embedding oracle, the vector-index oracle and the completion
stream.  `raised` is `some t` when some step of the `try` block raises
an exception after `response_text` has accumulated the text `t`
(possibly mid-stream); `none` when the whole block completes. -/
structure PipelineEnv where
  embed : String → Option (List Int)
  searchIndex : List Int → Except String (List ScoredPoint)
  stream : List StreamChunk
  raised : Option String

/-- `response_text` accumulation over the yielded fragments (source
lines 168-170): `response_text = ""` then `response_text += chunk`. -/
def accumulate (fragments : List String) : String :=
  fragments.foldl (fun acc c => acc ++ c) ""

/-- The `try/except` of the conversation loop (source lines 166-172):
on normal completion `response_text` is the accumulation of the
generator's fragments over the retrieved documents; on any exception
the accumulated text is discarded and `response_text` is reassigned to
the fixed apology. -/
def pipeline_response (env : PipelineEnv) (query : String) : String :=
  match env.raised with
  | some _ => apology_message
  | none =>
    let docs := (retrieve_documents env.embed env.searchIndex query).docs
    accumulate (generate_answer query docs env.stream).fragments

/-- Session state of the script: `st.session_state.messages` (line 128)
and the `exited` flag (lines 115, 197; absent is modelled as `false`). -/
structure SessionState where
  messages : List Turn
  exited : Bool
deriving Repr, DecidableEq

/-- Initial session state: `messages = []`, no `exited` key. -/
def initState : SessionState := ⟨[], false⟩

/-- The `submitted and user_input` branch (source lines 159-177): the
user turn is appended first (line 161), the pipeline runs, and the
assistant turn holding `response_text` is appended after it (line 176).
An empty `user_input` is falsy, so the guard skips the branch. -/
def submit_turn (s : SessionState) (user_input : String)
    (env : PipelineEnv) : SessionState :=
  if user_input = "" then s
  else
    { s with messages := s.messages ++
        [⟨"user", user_input⟩, ⟨"assistant", pipeline_response env user_input⟩] }

/-- The one widget event a render pass of the script can process:
no interaction, a form submission, or a click on the Exit button. -/
inductive UserAction where
  | idle : UserAction
  | submit (input : String) (env : PipelineEnv) : UserAction
  | exitClick : UserAction

/-- One render pass of the script as a state transformer.  When
`exited` is set the pass stops at `st.stop()` (line 117) before any
form or button, so the state is unchanged.  The Exit handler (lines
195-198) runs `st.session_state.clear()` and then sets only the
`exited` flag. -/
def step (s : SessionState) (a : UserAction) : SessionState :=
  if s.exited then s
  else
    match a with
    | UserAction.idle => s
    | UserAction.submit input env => submit_turn s input env
    | UserAction.exitClick => ⟨[], true⟩

/-- Iterated render passes. -/
def run (s : SessionState) (as : List UserAction) : SessionState :=
  as.foldl step s

/-- States reachable from a fresh session. -/
inductive Reachable : SessionState → Prop where
  | init : Reachable initState
  | step (s : SessionState) (a : UserAction) :
      Reachable s → Reachable (step s a)

/-- What one render pass displays. -/
inductive RenderItem where
  | closing : RenderItem
  | header : RenderItem
  | inputBox (i : Nat) : RenderItem
  | userMsg (content : String) : RenderItem
  | assistantMsg (content : String) : RenderItem
  | exitButton : RenderItem
deriving Repr, DecidableEq

/-- Iteration `i` of the conversation loop (source lines 133-190): the
form for turn `i`, then the user message at index `2*i` and the
assistant message at index `2*i+1` when present. -/
def render_iteration (msgs : List Turn) (i : Nat) : List RenderItem :=
  [RenderItem.inputBox i] ++
    (match msgs.get? (2 * i) with
     | some t => [RenderItem.userMsg t.content]
     | none => []) ++
    (match msgs.get? (2 * i + 1) with
     | some t => [RenderItem.assistantMsg t.content]
     | none => [])

/-- A full render pass (lines 115-198): with `exited` set, only the
closing acknowledgment renders and `st.stop()` ends the pass (lines
115-117); otherwise the header, the conversation loop over
`len(messages) // 2 + 1` iterations, and the Exit button render. -/
def render_pass (s : SessionState) : List RenderItem :=
  if s.exited then [RenderItem.closing]
  else
    RenderItem.header ::
      ((List.range (s.messages.length / 2 + 1)).flatMap
        (render_iteration s.messages) ++ [RenderItem.exitButton])

/-- Bool-valued alternation invariant on the history: user turns at
even indices, assistant turns at odd indices, complete pairs. -/
def alternating : List Turn → Bool
  | [] => true
  | [_] => false
  | u :: a :: rest =>
      u.role == "user" && a.role == "assistant" && alternating rest

/-- Modelled from the spec (§4.3), solely for comparison with
`format_line`: one record renders as `- <name>, <description>
(Gambar: <image reference>)` with literal fallback text "Tanpa Nama" /
"" / "-" for an absent field. -/
def spec_line (d : Doc) : String :=
  "- " ++ (match d.product_name with | some n => n | none => "Tanpa Nama") ++
    ", " ++ (match d.description with | some x => x | none => "") ++
    " (Gambar: " ++
    (match d.product_image_link with | some x => x | none => "-") ++ ")"

/-- Modelled from the spec (§4.3), solely for comparison with
`format_context`: lines joined with newline separators, insertion order
preserved, empty input yields the empty string. -/
def format_context_spec : List Doc → String
  | [] => ""
  | [d] => spec_line d
  | d :: rest => spec_line d ++ "\n" ++ format_context_spec rest

/-- Sample document used to instantiate witnesses. -/
def sampleDoc : Doc := ⟨some "Serum A", some "Vitamin C", some "url1"⟩

/-- Sample completion stream used to instantiate witnesses; the middle
chunk has absent delta content. -/
def sampleChunks : List StreamChunk :=
  [⟨some "Halo"⟩, ⟨none⟩, ⟨some " dunia"⟩]

/-- Sample pipeline environment where every external call succeeds. -/
def sampleEnvOk : PipelineEnv :=
  ⟨fun _ => some [1], fun _ => Except.ok [⟨sampleDoc, 1, [1]⟩],
    sampleChunks, none⟩

/-- Sample pipeline environment where an exception is raised after the
text "Halo" has already streamed. -/
def sampleEnvRaise : PipelineEnv :=
  ⟨fun _ => some [1], fun _ => Except.ok [⟨sampleDoc, 1, [1]⟩],
    sampleChunks, some "Halo"⟩

/-- Helper: the accumulator of `String.intercalate.go` factors out on
the left. -/
theorem intercalate_go_pull (s : String) (l : List String) :
    ∀ y : String,
      String.intercalate.go y s l = y ++ String.intercalate.go "" s l := by
  induction l with
  | nil => intro y; simp [String.intercalate.go]
  | cons a as ih =>
    intro y
    simp only [String.intercalate.go]
    rw [ih (y ++ s ++ a), ih ("" ++ s ++ a)]
    simp [String.append_assoc]

/-- Helper: `String.intercalate` on a list of two or more strings peels
off the head and one separator. -/
theorem intercalate_cons_cons (s a b : String) (l : List String) :
    String.intercalate s (a :: b :: l) =
      a ++ s ++ String.intercalate s (b :: l) := by
  simp only [String.intercalate]
  simp only [String.intercalate.go]
  rw [intercalate_go_pull s l (a ++ s ++ b), intercalate_go_pull s l b]
  simp [String.append_assoc]

/-- Helper: `format_line` agrees with the spec-side line rendering. -/
theorem format_line_eq_spec_line (d : Doc) : format_line d = spec_line d := by
  rcases d with ⟨pn, ds, il⟩
  cases pn <;> cases ds <;> cases il <;> rfl

/-- Helper: appending one user/assistant pair preserves alternation. -/
theorem alternating_append_pair (l : List Turn) (q r : String)
    (h : alternating l = true) :
    alternating (l ++ [⟨"user", q⟩, ⟨"assistant", r⟩]) = true := by
  induction l using alternating.induct with
  | case1 => rfl
  | case2 t => simp [alternating] at h
  | case3 u a rest ih =>
    simp only [alternating, Bool.and_eq_true] at h
    simp only [List.cons_append, alternating, Bool.and_eq_true]
    exact ⟨h.1, ih h.2⟩

/-- Helper: once `exited` is set with a cleared history, every further
render pass leaves the state fixed. -/
theorem run_exited_fixed (as : List UserAction) :
    run ⟨[], true⟩ as = ⟨[], true⟩ := by
  induction as with
  | nil => rfl
  | cons a as ih => simpa [run, step] using ih

/-- C1: submitting a non-empty turn appends exactly the user turn
followed by the assistant turn produced by the pipeline (apology
included), and consequently every reachable history alternates: user
turns at even indices, assistant turns at odd indices. -/
theorem submit_appends_pair_and_history_alternates :
    (∀ (s : SessionState) (input : String) (env : PipelineEnv),
        input ≠ "" →
        (submit_turn s input env).messages = s.messages ++
          [⟨"user", input⟩, ⟨"assistant", pipeline_response env input⟩]) ∧
    (∀ s : SessionState, Reachable s → alternating s.messages = true) := by
  constructor
  · intro s input env hne
    simp [submit_turn, hne]
  · intro s h
    induction h with
    | init => rfl
    | step s a hs ih =>
      by_cases hex : s.exited
      · simpa [step, hex] using ih
      · cases a with
        | idle => simpa [step, hex] using ih
        | submit input env =>
          by_cases hin : input = ""
          · simpa [step, hex, submit_turn, hin] using ih
          · simp only [step, hex, Bool.false_eq_true, if_false,
              submit_turn, hin]
            exact alternating_append_pair s.messages input
              (pipeline_response env input) ih
        | exitClick => simp only [step, hex, Bool.false_eq_true, if_false]; rfl

/-- Witness for C1 at the initial state with a concrete submission. -/
theorem submit_appends_pair_witness :
    ("halo" : String) ≠ "" ∧
    (submit_turn initState "halo" sampleEnvOk).messages =
      initState.messages ++
        [⟨"user", "halo"⟩,
         ⟨"assistant", pipeline_response sampleEnvOk "halo"⟩] ∧
    alternating
      (step initState (UserAction.submit "halo" sampleEnvOk)).messages
      = true :=
  ⟨by decide,
   submit_appends_pair_and_history_alternates.1 initState "halo" sampleEnvOk
     (by decide),
   submit_appends_pair_and_history_alternates.2 _
     (Reachable.step initState (UserAction.submit "halo" sampleEnvOk)
       Reachable.init)⟩

/-- C2: when any step of the per-turn pipeline raises, the stored
assistant turn holds exactly the fixed apology string, independent of
whatever partial text had already streamed. -/
theorem exception_stores_exact_apology
    (s : SessionState) (input : String) (env : PipelineEnv)
    (streamedSoFar : String)
    (hraised : env.raised = some streamedSoFar) (hin : input ≠ "") :
    pipeline_response env input = apology_message ∧
    (submit_turn s input env).messages = s.messages ++
      [⟨"user", input⟩, ⟨"assistant", apology_message⟩] := by
  have hresp : pipeline_response env input = apology_message := by
    simp [pipeline_response, hraised]
  exact ⟨hresp, by simp [submit_turn, hin, hresp]⟩

/-- Witness for C2 with an exception raised after "Halo" streamed. -/
theorem exception_stores_exact_apology_witness :
    sampleEnvRaise.raised = some "Halo" ∧ ("halo" : String) ≠ "" ∧
    (pipeline_response sampleEnvRaise "halo" = apology_message ∧
     (submit_turn initState "halo" sampleEnvRaise).messages =
       initState.messages ++
         [⟨"user", "halo"⟩, ⟨"assistant", apology_message⟩]) :=
  ⟨rfl, by decide,
   exception_stores_exact_apology initState "halo" sampleEnvRaise "Halo"
     rfl (by decide)⟩

/-- C3: on an empty records list the generator yields exactly the fixed
"no relevant information" fragment and opens no external call. -/
theorem generate_answer_empty_docs (query : String)
    (stream : List StreamChunk) :
    generate_answer query [] stream = ⟨[no_info_message], false⟩ := rfl

/-- C4: the formatter from the source agrees, on every record list,
with the spec-side rendering: one line per record with the literal
fallbacks, newline-joined in insertion order, empty on empty input. -/
theorem format_context_matches_spec (docs : List Doc) :
    format_context docs = format_context_spec docs := by
  induction docs with
  | nil => rfl
  | cons d rest ih =>
    cases rest with
    | nil =>
      simp [format_context, format_context_spec,
        String.intercalate, String.intercalate.go,
        format_line_eq_spec_line]
    | cons b l =>
      simp only [format_context, List.map_cons] at ih ⊢
      rw [intercalate_cons_cons, format_context_spec,
        format_line_eq_spec_line]
      rw [← ih]
      simp [String.append_assoc]

/-- C5: when the embedding client fails (returns no vector), retrieval
returns the empty sequence and never contacts the vector index. -/
theorem embed_failure_skips_index
    (embed : String → Option (List Int))
    (searchIndex : List Int → Except String (List ScoredPoint))
    (query : String) (h : embed query = none) :
    retrieve_documents embed searchIndex query = ⟨[], false⟩ := by
  simp [retrieve_documents, h]

/-- Witness for C5 with a concretely failing embedding oracle. -/
theorem embed_failure_skips_index_witness :
    (fun _ : String => (none : Option (List Int))) "q" = none ∧
    retrieve_documents (fun _ => none) (fun _ => Except.ok []) "q" =
      ⟨[], false⟩ :=
  ⟨rfl, embed_failure_skips_index _ _ "q" rfl⟩

/-- C6: invoking the session-termination control from a live session
leaves only the exit flag set with everything else cleared, and from
then on every render pass shows only the closing message, however many
further passes occur; in particular no history item can render. -/
theorem exit_clears_and_locks :
    (∀ s : SessionState, s.exited = false →
        step s UserAction.exitClick = ⟨[], true⟩) ∧
    (∀ as : List UserAction, run ⟨[], true⟩ as = ⟨[], true⟩) ∧
    (∀ s : SessionState, s.exited = true →
        render_pass s = [RenderItem.closing]) ∧
    (∀ as : List UserAction,
        render_pass (run ⟨[], true⟩ as) = [RenderItem.closing]) := by
  refine ⟨?_, run_exited_fixed, ?_, ?_⟩
  · intro s h; simp [step, h]
  · intro s h; simp [render_pass, h]
  · intro as; rw [run_exited_fixed]; rfl

/-- Witness for C6: exiting from the initial state, then two further
render passes. -/
theorem exit_clears_and_locks_witness :
    (initState.exited = false ∧
      step initState UserAction.exitClick = ⟨[], true⟩) ∧
    run ⟨[], true⟩ [UserAction.idle, UserAction.exitClick] = ⟨[], true⟩ ∧
    ((⟨[], true⟩ : SessionState).exited = true ∧
      render_pass ⟨[], true⟩ = [RenderItem.closing]) ∧
    render_pass (run ⟨[], true⟩ [UserAction.idle]) = [RenderItem.closing] :=
  ⟨⟨rfl, exit_clears_and_locks.1 initState rfl⟩,
   exit_clears_and_locks.2.1 [UserAction.idle, UserAction.exitClick],
   ⟨rfl, exit_clears_and_locks.2.2.1 ⟨[], true⟩ rfl⟩,
   exit_clears_and_locks.2.2.2 [UserAction.idle]⟩

/-- C7: when the pipeline completes without an exception and retrieval
produced a non-empty records list, the assistant turn stored for the
submission holds exactly the concatenation, in arrival order, of all
fragments yielded by the generator. -/
theorem stored_answer_is_fragment_concat
    (s : SessionState) (input : String) (env : PipelineEnv)
    (hin : input ≠ "") (hraised : env.raised = none)
    (_hdocs : (retrieve_documents env.embed env.searchIndex input).docs ≠ []) :
    (submit_turn s input env).messages = s.messages ++
      [⟨"user", input⟩,
       ⟨"assistant",
        String.join ((generate_answer input
          (retrieve_documents env.embed env.searchIndex input).docs
          env.stream).fragments)⟩] := by
  have hacc : ∀ l : List String, accumulate l = String.join l :=
    fun _ => rfl
  simp [submit_turn, hin, pipeline_response, hraised, hacc]

/-- Witness for C7: a fully successful pipeline over one retrieved
record and a three-chunk stream. -/
theorem stored_answer_is_fragment_concat_witness :
    ("halo" : String) ≠ "" ∧ sampleEnvOk.raised = none ∧
    (retrieve_documents sampleEnvOk.embed sampleEnvOk.searchIndex
      "halo").docs ≠ [] ∧
    (submit_turn initState "halo" sampleEnvOk).messages =
      initState.messages ++
        [⟨"user", "halo"⟩,
         ⟨"assistant",
          String.join ((generate_answer "halo"
            (retrieve_documents sampleEnvOk.embed sampleEnvOk.searchIndex
              "halo").docs
            sampleEnvOk.stream).fragments)⟩] :=
  ⟨by decide, rfl, by decide,
   stored_answer_is_fragment_concat initState "halo" sampleEnvOk
     (by decide) rfl (by decide)⟩

/-- C8: the context formatter is a pure function of its input; two
calls on the same record list yield identical output. -/
theorem format_context_deterministic (docs : List Doc) :
    format_context docs = format_context docs := rfl

/-- C9: an embedding call that succeeds with an empty vector
short-circuits retrieval exactly like an embedding failure: empty
result, index never contacted, and the two cases are indistinguishable
at the search interface. -/
theorem empty_embedding_skips_index
    (embed embedFail : String → Option (List Int))
    (searchIndex : List Int → Except String (List ScoredPoint))
    (query : String)
    (hempty : embed query = some []) (hfail : embedFail query = none) :
    retrieve_documents embed searchIndex query = ⟨[], false⟩ ∧
    retrieve_documents embed searchIndex query =
      retrieve_documents embedFail searchIndex query := by
  constructor
  · simp [retrieve_documents, hempty]
  · simp [retrieve_documents, hempty, hfail]

/-- Witness for C9: an empty embedding against an index that would
have returned a record. -/
theorem empty_embedding_skips_index_witness :
    (fun _ : String => some ([] : List Int)) "q" = some [] ∧
    (fun _ : String => (none : Option (List Int))) "q" = none ∧
    (retrieve_documents (fun _ => some [])
        (fun _ => Except.ok [⟨sampleDoc, 1, [1]⟩]) "q" = ⟨[], false⟩ ∧
     retrieve_documents (fun _ => some [])
        (fun _ => Except.ok [⟨sampleDoc, 1, [1]⟩]) "q" =
       retrieve_documents (fun _ => none)
        (fun _ => Except.ok [⟨sampleDoc, 1, [1]⟩]) "q") :=
  ⟨rfl, rfl,
   empty_embedding_skips_index _ _ _ "q" rfl rfl⟩

/-- C10: on the non-empty-records path every yielded fragment is the
chunk's delta content coerced to a string, and a chunk whose delta
content is absent yields the empty string rather than failing. -/
theorem yielded_fragments_are_strings :
    (∀ c : StreamChunk, c.content = none → chunkFragment c = "") ∧
    (∀ (query : String) (docs : List Doc) (stream : List StreamChunk),
        docs ≠ [] →
        (generate_answer query docs stream).fragments =
          stream.map chunkFragment) := by
  constructor
  · intro c h; simp [chunkFragment, h]
  · intro query docs stream h
    cases docs with
    | nil => exact absurd rfl h
    | cons d ds => rfl

/-- Witness for C10: the sample stream whose middle chunk has absent
content. -/
theorem yielded_fragments_are_strings_witness :
    ((⟨none⟩ : StreamChunk).content = none ∧
      chunkFragment ⟨none⟩ = "") ∧
    ([sampleDoc] ≠ ([] : List Doc) ∧
      (generate_answer "halo" [sampleDoc] sampleChunks).fragments =
        sampleChunks.map chunkFragment) :=
  ⟨⟨rfl, yielded_fragments_are_strings.1 ⟨none⟩ rfl⟩,
   ⟨by decide,
    yielded_fragments_are_strings.2 "halo" [sampleDoc] sampleChunks
      (by decide)⟩⟩

end RagSkincare
